import Mathlib

set_option maxRecDepth 20000

/-!
Verification of the report-generation core of the ProyectoInte repository
(`services/reportService.py`): permission-filtered querying, RUT-cache
resolution, factor-sum validation, dataframe normalization and CSV/Excel
export control flow, shallowly embedded in Lean 4.

Dynamic Python values that may appear in a record's fields are modelled by
`PyVal`; `float(...)` coercion is modelled by `pyFloat` (Python numeric
strings parsed by `parseFloatQ`, lists raising `TypeError`), with rationals
standing in for IEEE floats since only order and exactness of decimal
literals matter here. The Firestore user-document lookup is modelled by an
oracle `Oracle`, and the `rut_cache` dictionary by `Cache`.
-/

/-- A dynamic Python value stored in a record field: a number, a string,
or a list of numbers (the shapes `preparar_dataframe` distinguishes). -/
inductive PyVal where
  | num (q : ℚ)
  | str (s : String)
  | vlist (vs : List ℚ)
deriving DecidableEq, Repr

/-- Result of fetching a user document: found (with optional `rut` field),
not found, or a raised exception. -/
inductive Consulta where
  | encontrado (rut : Option String)
  | noExiste
  | fallo
deriving DecidableEq, Repr

/-- The Firestore `usuarios` collection, as a lookup oracle. -/
abbrev Oracle := String → Consulta

/-- The `rut_cache` dictionary: client id to cached RUT string. -/
abbrev Cache := String → Option String

/-- Dictionary assignment `cache[cliente_id] = rut`. -/
def cachePut (c : Cache) (k v : String) : Cache :=
  fun x => if x = k then some v else c x

/-- Digits-to-value accumulator for decimal digit lists. -/
def valDigitos (cs : List Char) : ℕ :=
  cs.foldl (fun a c => a * 10 + (c.toNat - 48)) 0

/-- Parse of a Python `float(...)` string argument (sign, integer digits,
optional decimal point and fraction digits, surrounding whitespace
stripped); `none` models a raised `ValueError`. -/
def parseFloatQ (s : String) : Option ℚ :=
  let t := s.trim
  let (neg, ds) :=
    match t.data with
    | '-' :: r => (true, r)
    | '+' :: r => (false, r)
    | r => (false, r)
  let izq := ds.takeWhile Char.isDigit
  let resto := ds.drop izq.length
  let signo : ℚ := if neg then -1 else 1
  match resto with
  | [] => if izq.isEmpty then none else some (signo * valDigitos izq)
  | '.' :: frac =>
    if frac.all Char.isDigit && !(izq.isEmpty && frac.isEmpty) then
      some (signo * ((valDigitos izq : ℚ) + valDigitos frac / 10 ^ frac.length))
    else none
  | _ => none

/-- Python `float(valor)`: numbers pass through, strings are parsed
(`ValueError` on failure), lists raise `TypeError`; both exceptions are
collapsed into `Except.error`. -/
def pyFloat : PyVal → Except Unit ℚ
  | .num q => .ok q
  | .str s =>
    match parseFloatQ s with
    | some q => .ok q
    | none => .error ()
  | .vlist _ => .error ()

/-- The `factores` field of a record: a keyed dict, a positional
list/tuple, or any other unsupported type. -/
inductive Factores where
  | dict (m : List (String × PyVal))
  | pos (vs : List PyVal)
  | otro
deriving DecidableEq, Repr

/-- Keys a positional sequence: `for i, valor in enumerate(factores_raw,
1): if i <= 19: factores_dict[...] = valor`. -/
def posAKeyed (i : ℕ) : List PyVal → List (String × PyVal)
  | [] => []
  | v :: vs =>
    if i ≤ 19 then ("factor_" ++ toString i, v) :: posAKeyed (i + 1) vs
    else posAKeyed (i + 1) vs

/-- Normalization of `factores_raw` into `factores_dict` in
`preparar_dataframe`. -/
def normalizarFactores : Factores → List (String × PyVal)
  | .dict m => m
  | .pos vs => posAKeyed 1 vs
  | .otro => []

/-- Lookup `factores_dict.get(..., 0)` for factor `i`. -/
def getFactor (fd : List (String × PyVal)) (i : ℕ) : PyVal :=
  (fd.lookup ("factor_" ++ toString i)).getD (.num 0)

/-- Computation of `suma_8_19`: the generator sum of
`float(factores_dict.get(..., 0))` over `range(8, 20)` inside a `try`,
with the whole sum replaced by `0.0` when any coercion raises
`ValueError`/`TypeError`. -/
def sumaFactores (fd : List (String × PyVal)) : ℚ :=
  match (List.range' 8 12).mapM (fun i => pyFloat (getFactor fd i)) with
  | .ok qs => qs.sum
  | .error _ => 0

/-- Modelled from the spec: "sum of factors 8 through 19 inclusive,
coercing each to a floating-point number and treating unparsable/
non-numeric values as zero" — each failing factor individually
contributes zero. Stated for comparison with `sumaFactores`. -/
def sumaFactoresSpec (fd : List (String × PyVal)) : ℚ :=
  ((List.range' 8 12).map
    (fun i => ((pyFloat (getFactor fd i)).toOption).getD 0)).sum

/-- Python string `<` (lexicographic by code point), on char lists. -/
def cadLt : List Char → List Char → Bool
  | [], [] => false
  | [], _ :: _ => true
  | _ :: _, [] => false
  | a :: as, b :: bs => if a < b then true else if b < a then false else cadLt as bs

/-- Python `s1 < s2` on strings. -/
def strLt (a b : String) : Bool := cadLt a.data b.data

/-- Python `s1 <= s2` on strings (total order: the complement of `>`). -/
def strLe (a b : String) : Bool := !strLt b a

/-- Python `needle in hay` on strings: contiguous substring. -/
def subcadena (hay needle : String) : Bool := decide (needle.data <:+: hay.data)

/-- A tax-qualification document, with the fields `reportService.py` reads
(absent `fechaDeclaracion`/`tipoImpuesto`/`pais`/`clienteId` are the
default `""`, absent `esLocal` is `False`, absent `montoDeclarado` is `0`,
absent `propietarioRegistroId` is Python `None`, i.e. `none`). -/
structure Registro where
  id : String
  activo : Bool
  fechaDeclaracion : String
  tipoImpuesto : String
  pais : String
  clienteId : String
  montoDeclarado : PyVal
  factores : Factores
  esLocal : Bool
  propietarioRegistroId : Option String
deriving DecidableEq, Repr

/-- The `filtros` dictionary of `obtener_datos_filtrados`: `none` models an
absent/`None` entry, `rut_cliente` defaults to `""` and `estado` to
`"ambos"`. -/
structure Filtros where
  fecha_desde : Option String
  fecha_hasta : Option String
  tipo_impuesto : Option String
  pais : Option String
  rut_cliente : String
  estado : String
deriving DecidableEq, Repr

/-- The method `obtener_rut_cliente`: cached RUT lookup that absorbs every failure
into the sentinel `"N/A"`. -/
def obtener_rut_cliente (fetch : Oracle) (cache : Cache) (cliente_id : String) :
    String × Cache :=
  if cliente_id = "" then ("N/A", cache)
  else
    match cache cliente_id with
    | some v => (v, cache)
    | none =>
      match fetch cliente_id with
      | .encontrado mrut =>
        (mrut.getD "N/A", cachePut cache cliente_id (mrut.getD "N/A"))
      | .noExiste => ("N/A", cachePut cache cliente_id "N/A")
      | .fallo => ("N/A", cachePut cache cliente_id "N/A")

/-- Date-from filter: skip unless the value is set, the record's
declaration date is non-empty, and the date is lexicographically below
the bound. -/
def pasaFechaDesde (f : Filtros) (r : Registro) : Bool :=
  match f.fecha_desde with
  | none => true
  | some d => if r.fechaDeclaracion = "" then true else !strLt r.fechaDeclaracion d

/-- Date-to filter, symmetric to `pasaFechaDesde`. -/
def pasaFechaHasta (f : Filtros) (r : Registro) : Bool :=
  match f.fecha_hasta with
  | none => true
  | some d => if r.fechaDeclaracion = "" then true else !strLt d r.fechaDeclaracion

/-- Tax-type equality filter (`if tipo_impuesto:` is falsy for `None` and
`""`). -/
def pasaTipo (f : Filtros) (r : Registro) : Bool :=
  match f.tipo_impuesto with
  | none => true
  | some t => if t = "" then true else r.tipoImpuesto == t

/-- Country equality filter. -/
def pasaPais (f : Filtros) (r : Registro) : Bool :=
  match f.pais with
  | none => true
  | some p => if p = "" then true else r.pais == p

/-- Locality filter on `estado` ∈ {"local", "bolsa", "ambos"}. -/
def pasaEstado (f : Filtros) (r : Registro) : Bool :=
  if f.estado = "local" && !r.esLocal then false
  else if f.estado = "bolsa" && r.esLocal then false
  else true

/-- The first four (pure) filters, in source order. -/
def pasaFiltrosPrevios (f : Filtros) (r : Registro) : Bool :=
  pasaFechaDesde f r && pasaFechaHasta f r && pasaTipo f r && pasaPais f r

/-- Client-RUT filter: resolve the record's RUT through the cache (side
effect), then require the stripped-and-uppercased filter to occur in it. -/
def pasaRut (f : Filtros) (fetch : Oracle) (cache : Cache) (r : Registro) :
    Bool × Cache :=
  if f.rut_cliente = "" then (true, cache)
  else
    let rc := obtener_rut_cliente fetch cache r.clienteId
    (subcadena rc.1 (f.rut_cliente.trim.toUpper), rc.2)

/-- One iteration of the `for doc in docs` loop of
`obtener_datos_filtrados`: filters in source order, then the role-based
visibility rule; returns the kept record (if any) and the updated cache. -/
def procesarDoc (f : Filtros) (fetch : Oracle) (usuario_id rol : String)
    (r : Registro) (cache : Cache) : Option Registro × Cache :=
  if pasaFiltrosPrevios f r then
    let pr := pasaRut f fetch cache r
    if pr.1 && pasaEstado f r then
      if rol = "administrador" then (some r, pr.2)
      else if !r.esLocal then (some r, pr.2)
      else if r.propietarioRegistroId == some usuario_id then (some r, pr.2)
      else (none, pr.2)
    else (none, pr.2)
  else (none, cache)

/-- The filtering loop of `obtener_datos_filtrados`, threading the RUT
cache left to right. -/
def filtrarLista (f : Filtros) (fetch : Oracle) (usuario_id rol : String) :
    List Registro → Cache → List Registro × Cache
  | [], cache => ([], cache)
  | r :: rs, cache =>
    match procesarDoc f fetch usuario_id rol r cache with
    | (some kept, c2) =>
      let res := filtrarLista f fetch usuario_id rol rs c2
      (kept :: res.1, res.2)
    | (none, c2) => filtrarLista f fetch usuario_id rol rs c2

/-- The limit `self.MAX_RECORDS`. -/
def MAX_RECORDS : ℕ := 10000

/-- The method `obtener_datos_filtrados`: the Firestore query keeps active documents
up to `MAX_RECORDS`; everything else is filtered in memory. -/
def obtener_datos_filtrados (fetch : Oracle) (docs : List Registro)
    (filtros : Filtros) (usuario_id rol : String) (cache : Cache) :
    List Registro × Cache :=
  filtrarLista filtros fetch usuario_id rol
    ((docs.filter fun r => r.activo).take MAX_RECORDS) cache

/-- The method `validar_permisos_exportacion`: administrators keep everything; others
keep non-local records and their own local records. -/
def validar_permisos_exportacion (calificaciones : List Registro)
    (usuario_id rol : String) : List Registro :=
  if rol = "administrador" then calificaciones
  else calificaciones.filter fun dato =>
    !dato.esLocal || dato.propietarioRegistroId == some usuario_id

/-- The `Factor {i}` column: lists are replaced by their first element (or
`0` when empty), then coerced to float with a per-factor fallback to
`0.0`. -/
def factorCol (fd : List (String × PyVal)) (i : ℕ) : ℚ :=
  let valor := getFactor fd i
  let escalar :=
    match valor with
    | .vlist vs =>
      match vs.head? with
      | some q => PyVal.num q
      | none => PyVal.num 0
    | v => v
  match pyFloat escalar with
  | .ok q => q
  | .error _ => 0

/-- One row of the dataframe built by `preparar_dataframe` (the fixed
column set; `columnasFactor` holds `Factor 1` .. `Factor 19` in order). -/
structure Fila where
  rutCliente : String
  fechaDeclaracion : String
  tipoImpuesto : String
  pais : String
  montoDeclarado : ℚ
  columnasFactor : List ℚ
  sumaF8a19 : ℚ
  estado : String
  valido : String
deriving DecidableEq, Repr

/-- The per-record body of the loop in `preparar_dataframe`: resolve the
RUT, normalize `factores`, compute the guarded factor sum, then build the
row; a failing `float(montoDeclarado)` raises and the record is skipped
(`none`). -/
def prepararFila (fetch : Oracle) (cal : Registro) (cache : Cache) :
    Option Fila × Cache :=
  let rc := obtener_rut_cliente fetch cache cal.clienteId
  let fd := normalizarFactores cal.factores
  let suma := sumaFactores fd
  match pyFloat cal.montoDeclarado with
  | .error _ => (none, rc.2)
  | .ok monto =>
    (some {
      rutCliente := rc.1
      fechaDeclaracion := cal.fechaDeclaracion
      tipoImpuesto := cal.tipoImpuesto
      pais := cal.pais
      montoDeclarado := monto
      columnasFactor := (List.range' 1 19).map (factorCol fd)
      sumaF8a19 := suma
      estado := if cal.esLocal then "Local" else "Bolsa"
      valido := if suma ≤ 1 then "Sí" else "No (>1.0)" }, rc.2)

/-- The method `preparar_dataframe`: per-record normalization, skipping records whose
normalization raises, threading the RUT cache. -/
def preparar_dataframe (fetch : Oracle) :
    List Registro → Cache → List Fila × Cache
  | [], cache => ([], cache)
  | cal :: cals, cache =>
    match prepararFila fetch cal cache with
    | (some fila, c2) =>
      let res := preparar_dataframe fetch cals c2
      (fila :: res.1, res.2)
    | (none, c2) => preparar_dataframe fetch cals c2

/-- Outcome of an export call: the returned result dictionary plus whether
the output file was written and whether `registrar_reporte` ran. -/
structure ExportResult where
  success : Bool
  message : String
  archivoEscrito : Bool
  historialRegistrado : Bool
deriving DecidableEq, Repr

/-- The method `exportar_csv` (file path and progress callback omitted: the file
write and the history append are recorded as flags). -/
def exportar_csv (fetch : Oracle) (calificaciones : List Registro)
    (filtros : Filtros) (usuario_id rol : String) (cache : Cache) :
    ExportResult × Cache :=
  if calificaciones.isEmpty then
    ({ success := false, message := "No hay datos para exportar",
       archivoEscrito := false, historialRegistrado := false }, cache)
  else
    let autorizadas := validar_permisos_exportacion calificaciones usuario_id rol
    if autorizadas.isEmpty then
      ({ success := false, message := "No tiene permisos para exportar estos datos",
         archivoEscrito := false, historialRegistrado := false }, cache)
    else
      let df := preparar_dataframe fetch autorizadas cache
      ({ success := true,
         message := "CSV generado exitosamente con " ++
           toString autorizadas.length ++ " registros",
         archivoEscrito := true, historialRegistrado := true }, df.2)

/-- The method `exportar_excel`: identical pre-serialization control flow to
`exportar_csv` (sheet styling and the summary sheet are not modelled). -/
def exportar_excel (fetch : Oracle) (calificaciones : List Registro)
    (filtros : Filtros) (usuario_id rol : String) (cache : Cache) :
    ExportResult × Cache :=
  if calificaciones.isEmpty then
    ({ success := false, message := "No hay datos para exportar",
       archivoEscrito := false, historialRegistrado := false }, cache)
  else
    let autorizadas := validar_permisos_exportacion calificaciones usuario_id rol
    if autorizadas.isEmpty then
      ({ success := false, message := "No tiene permisos para exportar estos datos",
         archivoEscrito := false, historialRegistrado := false }, cache)
    else
      let df := preparar_dataframe fetch autorizadas cache
      ({ success := true,
         message := "Excel generado exitosamente con " ++
           toString autorizadas.length ++ " registros",
         archivoEscrito := true, historialRegistrado := true }, df.2)

/-- Follows the spec's words ("optional client-RUT substring
(case-insensitive, matched against resolved client identifier string)"):
a case-insensitive substring test, for comparison with the code's
`pasaRut`. -/
def subcadenaSpecCI (hay needle : String) : Bool :=
  subcadena hay.toUpper needle.toUpper

/-- The claim-side keyed-mapping encoding of 19 positional factor values:
`{factor_i: v_i}` with `i` counted from `i0`. -/
def keyedOf : ℕ → List PyVal → List (String × PyVal)
  | _, [] => []
  | i, v :: vs => ("factor_" ++ toString i, v) :: keyedOf (i + 1) vs

/-- Filters with every entry unset except the client-RUT substring. -/
def filtrosSoloRut (s : String) : Filtros :=
  { fecha_desde := none, fecha_hasta := none, tipo_impuesto := none,
    pais := none, rut_cliente := s, estado := "ambos" }

/- Concrete inputs used by witnesses and counterexamples. -/

/-- An oracle on which every user lookup reports "not found". -/
def fetch0 : Oracle := fun _ => .noExiste

/-- An oracle that finds every user with RUT `"X"`. -/
def fetchX : Oracle := fun _ => .encontrado (some "X")

/-- The empty RUT cache. -/
def cache0 : Cache := fun _ => none

/-- A cache holding `"c1" ↦ "RUT-1"`. -/
def cache9 : Cache := cachePut cache0 "c1" "RUT-1"

/-- A baseline record with every optional field at its default. -/
def reg0 : Registro :=
  { id := "R0", activo := true, fechaDeclaracion := "", tipoImpuesto := "",
    pais := "", clienteId := "", montoDeclarado := .num 0, factores := .otro,
    esLocal := false, propietarioRegistroId := none }

/-- Factor dict with one unparsable and one numeric factor in 8..19. -/
def fd6 : List (String × PyVal) :=
  [("factor_8", .str "abc"), ("factor_9", .num (1/2))]

/-- Factor dict whose factors 8..19 all coerce. -/
def fd6b : List (String × PyVal) := [("factor_9", .num 2)]

/-- Record carrying `fd6` as factores. -/
def reg6 : Registro := { reg0 with id := "R6", factores := .dict fd6 }

/-- Record whose factor-8-19 sum is exactly `1.0`. -/
def reg7a : Registro :=
  { reg0 with id := "R7a", factores := .dict [("factor_8", .num 1)] }

/-- Record whose factor-8-19 sum is `1.01`, above the threshold. -/
def reg7b : Registro :=
  { reg0 with id := "R7b", factores := .dict [("factor_8", .num (101/100))] }

/-- The row `preparar_dataframe` builds for `reg7a`. -/
def fila7a : Fila :=
  { rutCliente := "N/A", fechaDeclaracion := "", tipoImpuesto := "", pais := "",
    montoDeclarado := 0,
    columnasFactor := [0, 0, 0, 0, 0, 0, 0, 1, 0, 0, 0, 0, 0, 0, 0, 0, 0, 0, 0],
    sumaF8a19 := 1, estado := "Bolsa", valido := "Sí" }

/-- The row `preparar_dataframe` builds for `reg7b`. -/
def fila7b : Fila :=
  { fila7a with
    columnasFactor :=
      [0, 0, 0, 0, 0, 0, 0, 101/100, 0, 0, 0, 0, 0, 0, 0, 0, 0, 0, 0],
    sumaF8a19 := 101/100, valido := "No (>1.0)" }

/-- A local record owned by `"U2"`. -/
def reg8 : Registro :=
  { reg0 with id := "R8", esLocal := true, propietarioRegistroId := some "U2" }

/-- Filters with nothing set. -/
def filtros0 : Filtros := filtrosSoloRut ""

/-- Filters with a closed date range and nothing else. -/
def filtros3 : Filtros :=
  { filtros0 with fecha_desde := some "2024-01-01", fecha_hasta := some "2024-12-31" }

/-- Record whose client resolves to the mixed-case RUT `"12k"`. -/
def reg4 : Registro := { reg0 with id := "R4", clienteId := "c4" }

/-- Oracle resolving every user to the mixed-case RUT `"12k"`. -/
def fetch4 : Oracle := fun _ => .encontrado (some "12k")

/-- A local record owned by `"U1"`. -/
def reg1 : Registro :=
  { reg0 with id := "L1", esLocal := true, propietarioRegistroId := some "U1" }

/-- A bolsa (non-local) record. -/
def regB : Registro := { reg0 with id := "B1" }

/-- The spec scenario's record set: own local, foreign local, bolsa. -/
def docs1 : List Registro := [reg1, reg8, regB]

/-- An active record with an empty declaration date. -/
def reg3 : Registro := { reg0 with id := "R3" }

/-- An active record dated inside the 2024 range. -/
def reg3b : Registro := { reg0 with id := "R3b", fechaDeclaracion := "2024-03-05" }

/- Sanity checks of the embedding on concrete values. -/

example : sumaFactores fd6 = 0 := by with_unfolding_all decide

example : sumaFactoresSpec fd6 = 1/2 := by with_unfolding_all decide

example : parseFloatQ "1.5" = some (3/2) := by with_unfolding_all decide

example : parseFloatQ " -2. " = some (-2) := by with_unfolding_all decide

example : strLt "" "2024-01-01" = true := by decide

example : strLe "2024-03-05" "2024-12-31" = true := by decide

example : subcadena "12K" "K" = true := by decide

example : subcadena "12k" "K" = false := by decide

/- Helper lemmas. -/

/-- If every element of the sum range coerces, `mapM` returns all coerced
values. -/
theorem mapM_ok_de_todos (g : ℕ → Except Unit ℚ) (l : List ℕ)
    (h : ∀ i ∈ l, (g i).isOk = true) :
    l.mapM g = .ok (l.map fun i => ((g i).toOption).getD 0) := by
  induction l with
  | nil => rfl
  | cons a l ih =>
    have ha := h a (by simp)
    cases hg : g a with
    | error e => rw [hg] at ha; simp [Except.isOk, Except.toBool] at ha
    | ok q =>
      have ht := ih fun i hi => h i (by simp [hi])
      rw [List.mapM_cons, hg, ht]
      simp [Except.toOption, hg, bind, Except.bind, pure, Except.pure]

/-- If some element of the sum range fails to coerce, `mapM` fails. -/
theorem mapM_error_de_alguno (g : ℕ → Except Unit ℚ) (l : List ℕ)
    (h : ∃ i ∈ l, (g i).isOk = false) :
    l.mapM g = .error () := by
  induction l with
  | nil => simp at h
  | cons a l ih =>
    rcases h with ⟨i, hi, hbad⟩
    rcases List.mem_cons.mp hi with rfl | hi2
    · cases hg : g i with
      | ok q => rw [hg] at hbad; simp [Except.isOk, Except.toBool] at hbad
      | error e =>
        cases e
        rw [List.mapM_cons, hg]
        rfl
    · cases hg : g a with
      | error e =>
        cases e
        rw [List.mapM_cons, hg]
        rfl
      | ok q =>
        rw [List.mapM_cons, hg, ih ⟨i, hi2, hbad⟩]
        rfl

/-- A row built by `prepararFila` carries the `Válido` mark determined by
its own factor-8-19 sum. -/
theorem prepararFila_valido (fetch : Oracle) (cal : Registro) (cache : Cache)
    (fl : Fila) (c2 : Cache) (h : prepararFila fetch cal cache = (some fl, c2)) :
    fl.valido = (if fl.sumaF8a19 ≤ 1 then "Sí" else "No (>1.0)") := by
  unfold prepararFila at h
  split at h
  · simp at h
  · simp at h
    obtain ⟨h1, h2⟩ := h
    subst h1
    rfl

/- Claims. -/

/-- C10: for every record list, identity and role, the output of
`validar_permisos_exportacion` is a subsequence of its input: kept
records are the identical input records, in input order, without
duplication or modification. -/
theorem c10_autorizacion_subsecuencia (calificaciones : List Registro)
    (usuario_id rol : String) :
    (validar_permisos_exportacion calificaciones usuario_id rol).Sublist
      calificaciones := by
  unfold validar_permisos_exportacion
  split
  · exact List.Sublist.refl _
  · exact List.filter_sublist _

/-- C2: export authorization is idempotent: applying
`validar_permisos_exportacion` to its own output yields the same list as
applying it once. -/
theorem c2_autorizacion_idempotente (calificaciones : List Registro)
    (usuario_id rol : String) :
    validar_permisos_exportacion
        (validar_permisos_exportacion calificaciones usuario_id rol)
        usuario_id rol
      = validar_permisos_exportacion calificaciones usuario_id rol := by
  unfold validar_permisos_exportacion
  split
  · rfl
  · simp [List.filter_filter]

/-- C6 (amended): the `Suma Factores 8-19` of a record equals the sum of
the float-coercions of factors 8..19 when every one of them coerces; when
any factor fails to coerce, the entire sum is `0.0` (the `try` wraps the
whole generator sum); the computation is total (never raises). -/
theorem c6_suma_8_19_guardada (fd : List (String × PyVal)) :
    ((∀ i ∈ List.range' 8 12, (pyFloat (getFactor fd i)).isOk = true) →
      sumaFactores fd = sumaFactoresSpec fd)
  ∧ ((∃ i ∈ List.range' 8 12, (pyFloat (getFactor fd i)).isOk = false) →
      sumaFactores fd = 0) := by
  constructor
  · intro h
    unfold sumaFactores sumaFactoresSpec
    rw [mapM_ok_de_todos _ _ h]
  · intro h
    unfold sumaFactores
    rw [mapM_error_de_alguno _ _ h]

/-- C6 counterexample: with `factor_8 = "abc"` (unparsable) and
`factor_9 = 1/2`, the code's sum is `0`, not the per-factor-zeroed `1/2`
the claim requires, both at the sum function and in the row built by
`preparar_dataframe`. -/
theorem c6_contraejemplo :
    sumaFactores fd6 = 0 ∧ sumaFactoresSpec fd6 = 1/2
      ∧ ((prepararFila fetch0 reg6 cache0).1.map Fila.sumaF8a19) = some 0
      ∧ (0 : ℚ) ≠ 1/2 := by
  refine ⟨?_, ?_, ?_, ?_⟩ <;> with_unfolding_all decide

/-- C6 witness: both branches of the amended claim at concrete factor
dicts. -/
theorem c6_suma_8_19_guardada_witness :
    sumaFactores fd6b = sumaFactoresSpec fd6b ∧ sumaFactores fd6 = 0 :=
  ⟨(c6_suma_8_19_guardada fd6b).1 (by with_unfolding_all decide),
   (c6_suma_8_19_guardada fd6).2 ⟨8, by decide, by with_unfolding_all decide⟩⟩

/-- C7: every row produced by `preparar_dataframe` is marked `"Sí"` in
`Válido` exactly when its factor-8-19 sum is at most `1.0` (inclusive
boundary). -/
theorem c7_valido_umbral (fetch : Oracle) (cals : List Registro)
    (cache : Cache) (fila : Fila)
    (h : fila ∈ (preparar_dataframe fetch cals cache).1) :
    fila.valido = "Sí" ↔ fila.sumaF8a19 ≤ 1 := by
  induction cals generalizing cache with
  | nil => simp [preparar_dataframe] at h
  | cons cal cals ih =>
    unfold preparar_dataframe at h
    cases hp : prepararFila fetch cal cache with
    | mk o c2 =>
      rw [hp] at h
      cases o with
      | none => exact ih c2 h
      | some fl =>
        simp only [List.mem_cons] at h
        rcases h with rfl | h
        · have hv := prepararFila_valido fetch cal cache fila c2 hp
          rw [hv]
          split
          · next hle => simp [hle]
          · next hgt =>
            constructor
            · intro he; exact absurd he (by decide)
            · intro hle; exact absurd hle hgt
        · exact ih c2 h

/-- C7 witness: a record summing to exactly `1.0` is marked valid and one
summing to `1.0001` is not. -/
theorem c7_valido_umbral_witness :
    fila7a ∈ (preparar_dataframe fetch0 [reg7a] cache0).1
  ∧ fila7a.valido = "Sí"
  ∧ fila7b ∈ (preparar_dataframe fetch0 [reg7b] cache0).1
  ∧ fila7b.valido ≠ "Sí" := by
  have h1 : fila7a ∈ (preparar_dataframe fetch0 [reg7a] cache0).1 := by
    with_unfolding_all decide
  have h2 : fila7b ∈ (preparar_dataframe fetch0 [reg7b] cache0).1 := by
    with_unfolding_all decide
  refine ⟨h1, (c7_valido_umbral fetch0 [reg7a] cache0 fila7a h1).mpr
    (by with_unfolding_all decide), h2, ?_⟩
  intro he
  have hle := (c7_valido_umbral fetch0 [reg7b] cache0 fila7b h2).mp he
  revert hle
  with_unfolding_all decide

/-- C9 (amended): the RUT-cache contract of `obtener_rut_cliente` for the
empty client id (returns `"N/A"` untouched cache), a cached id (cached
value, untouched cache), a miss that finds the user (cache and return the
`rut` field, `"N/A"` when absent), and a miss that finds nothing or
raises (cache and return `"N/A"`; the failure is absorbed). -/
theorem c9_rut_cache_contrato (fetch : Oracle) (cache : Cache)
    (cliente_id : String) (mrut : Option String) (v : String) :
    obtener_rut_cliente fetch cache "" = ("N/A", cache)
  ∧ (cliente_id ≠ "" → cache cliente_id = some v →
      obtener_rut_cliente fetch cache cliente_id = (v, cache))
  ∧ (cliente_id ≠ "" → cache cliente_id = none →
      fetch cliente_id = .encontrado mrut →
      obtener_rut_cliente fetch cache cliente_id
        = (mrut.getD "N/A", cachePut cache cliente_id (mrut.getD "N/A")))
  ∧ (cliente_id ≠ "" → cache cliente_id = none →
      (fetch cliente_id = .noExiste ∨ fetch cliente_id = .fallo) →
      obtener_rut_cliente fetch cache cliente_id
        = ("N/A", cachePut cache cliente_id "N/A")) := by
  refine ⟨rfl, ?_, ?_, ?_⟩
  · intro hne hc
    unfold obtener_rut_cliente
    rw [if_neg hne, hc]
  · intro hne hc hf
    unfold obtener_rut_cliente
    rw [if_neg hne, hc, hf]
  · intro hne hc hor
    unfold obtener_rut_cliente
    rw [if_neg hne, hc]
    rcases hor with hf | hf <;> rw [hf]

/-- C9 counterexample: a blank (whitespace, non-empty) client id is truthy
in Python, so the code does perform the lookup — returning the found RUT
`"X"` rather than `"N/A"` — and does create a cache entry, contrary to
the claim's "empty or blank id: no lookup, no cache entry". -/
theorem c9_contraejemplo :
    (obtener_rut_cliente fetchX cache0 " ").1 = "X"
  ∧ (obtener_rut_cliente fetch0 cache0 " ").2 " " = some "N/A"
  ∧ cache0 " " = none := by
  exact ⟨rfl, rfl, rfl⟩

/-- C9 witness: the four branches of the contract at concrete inputs. -/
theorem c9_rut_cache_contrato_witness :
    obtener_rut_cliente fetch0 cache0 "" = ("N/A", cache0)
  ∧ obtener_rut_cliente fetchX cache9 "c1" = ("RUT-1", cache9)
  ∧ obtener_rut_cliente fetchX cache0 "c2"
      = ((some "X").getD "N/A", cachePut cache0 "c2" ((some "X").getD "N/A"))
  ∧ obtener_rut_cliente fetch0 cache0 "c3"
      = ("N/A", cachePut cache0 "c3" "N/A") :=
  ⟨(c9_rut_cache_contrato fetch0 cache0 "" none "").1,
   (c9_rut_cache_contrato fetchX cache9 "c1" none "RUT-1").2.1
     (by decide) rfl,
   (c9_rut_cache_contrato fetchX cache0 "c2" (some "X") "").2.2.1
     (by decide) rfl rfl,
   (c9_rut_cache_contrato fetch0 cache0 "c3" none "").2.2.2
     (by decide) rfl (Or.inl rfl)⟩

/-- C8: exporting an empty record list, or a list emptied by export
authorization, fails with a human-readable message, writes no file and
records no history entry, for both CSV and Excel. -/
theorem c8_exporta_sin_datos (fetch : Oracle) (calificaciones : List Registro)
    (filtros : Filtros) (usuario_id rol : String) (cache : Cache)
    (h : calificaciones = []
      ∨ validar_permisos_exportacion calificaciones usuario_id rol = []) :
    ((exportar_csv fetch calificaciones filtros usuario_id rol cache).1.success = false
   ∧ (exportar_csv fetch calificaciones filtros usuario_id rol cache).1.archivoEscrito = false
   ∧ (exportar_csv fetch calificaciones filtros usuario_id rol cache).1.historialRegistrado = false
   ∧ (exportar_csv fetch calificaciones filtros usuario_id rol cache).1.message ≠ "")
  ∧ ((exportar_excel fetch calificaciones filtros usuario_id rol cache).1.success = false
   ∧ (exportar_excel fetch calificaciones filtros usuario_id rol cache).1.archivoEscrito = false
   ∧ (exportar_excel fetch calificaciones filtros usuario_id rol cache).1.historialRegistrado = false
   ∧ (exportar_excel fetch calificaciones filtros usuario_id rol cache).1.message ≠ "") := by
  by_cases hc : calificaciones = []
  · subst hc
    refine ⟨⟨rfl, rfl, rfl, ?_⟩, rfl, rfl, rfl, ?_⟩ <;>
      · show "No hay datos para exportar" ≠ ""
        decide
  · have hv : validar_permisos_exportacion calificaciones usuario_id rol = [] := by
      rcases h with h | h
      · exact absurd h hc
      · exact h
    have h1 : calificaciones.isEmpty = false := by
      simp [List.isEmpty_iff, hc]
    have h2 : (validar_permisos_exportacion calificaciones usuario_id rol).isEmpty
        = true := by
      simp [List.isEmpty_iff, hv]
    refine ⟨⟨?_, ?_, ?_, ?_⟩, ?_, ?_, ?_, ?_⟩ <;>
      simp [exportar_csv, exportar_excel, h1, h2]

/-- C8 witness: a non-admin exporting someone else's local record: the
authorized list is empty, both exports fail, nothing is written or
recorded. -/
theorem c8_exporta_sin_datos_witness :
    ((exportar_csv fetch0 [reg8] filtros0 "U1" "cliente" cache0).1.success = false
   ∧ (exportar_csv fetch0 [reg8] filtros0 "U1" "cliente" cache0).1.archivoEscrito = false
   ∧ (exportar_csv fetch0 [reg8] filtros0 "U1" "cliente" cache0).1.historialRegistrado = false
   ∧ (exportar_csv fetch0 [reg8] filtros0 "U1" "cliente" cache0).1.message ≠ "")
  ∧ ((exportar_excel fetch0 [reg8] filtros0 "U1" "cliente" cache0).1.success = false
   ∧ (exportar_excel fetch0 [reg8] filtros0 "U1" "cliente" cache0).1.archivoEscrito = false
   ∧ (exportar_excel fetch0 [reg8] filtros0 "U1" "cliente" cache0).1.historialRegistrado = false
   ∧ (exportar_excel fetch0 [reg8] filtros0 "U1" "cliente" cache0).1.message ≠ "") :=
  c8_exporta_sin_datos fetch0 [reg8] filtros0 "U1" "cliente" cache0
    (Or.inr (by with_unfolding_all decide))

/-- Keying a positional factor sequence agrees with the claim-side keyed
encoding as long as the indices stay at most 19. -/
theorem posAKeyed_eq_keyedOf (vs : List PyVal) :
    ∀ i, i + vs.length ≤ 20 → posAKeyed i vs = keyedOf i vs := by
  induction vs with
  | nil => intro i h; rfl
  | cons v vs ih =>
    intro i h
    unfold posAKeyed keyedOf
    rw [if_pos (by simp at h; omega : i ≤ 19), ih (i + 1) (by simp at h; omega)]

/-- C5: a keyed mapping `{factor_1..factor_19}` and a positional
19-element sequence encoding the same 19 numeric values yield the same
row — in particular the same `Suma Factores 8-19` and the same
`Factor 1..19` columns — both per record and through
`preparar_dataframe`. -/
theorem c5_factores_invariantes (fetch : Oracle) (cache : Cache)
    (cal : Registro) (qs : List ℚ) (h : qs.length = 19) :
    prepararFila fetch { cal with factores := .dict (keyedOf 1 (qs.map .num)) } cache
      = prepararFila fetch { cal with factores := .pos (qs.map .num) } cache
  ∧ preparar_dataframe fetch [{ cal with factores := .dict (keyedOf 1 (qs.map .num)) }] cache
      = preparar_dataframe fetch [{ cal with factores := .pos (qs.map .num) }] cache := by
  have hn : normalizarFactores (.pos (qs.map .num))
      = normalizarFactores (.dict (keyedOf 1 (qs.map .num))) := by
    simp only [normalizarFactores]
    rw [posAKeyed_eq_keyedOf (qs.map .num) 1 (by simp [h])]
  have hf : prepararFila fetch { cal with factores := .dict (keyedOf 1 (qs.map .num)) } cache
      = prepararFila fetch { cal with factores := .pos (qs.map .num) } cache := by
    unfold prepararFila
    simp only [hn]
  refine ⟨hf, ?_⟩
  unfold preparar_dataframe
  rw [hf]

/-- C5 witness: the two representations of the values `1..19` flow to the
same row. -/
theorem c5_factores_invariantes_witness :
    prepararFila fetch0
        { reg0 with factores := .dict (keyedOf 1 ((List.range 19).map fun n => .num n)) } cache0
      = prepararFila fetch0
        { reg0 with factores := .pos ((List.range 19).map fun n => .num n) } cache0
  ∧ preparar_dataframe fetch0
        [{ reg0 with factores := .dict (keyedOf 1 ((List.range 19).map fun n => .num n)) }] cache0
      = preparar_dataframe fetch0
        [{ reg0 with factores := .pos ((List.range 19).map fun n => .num n) }] cache0 := by
  have := c5_factores_invariantes fetch0 cache0 reg0
    ((List.range 19).map fun n => (n : ℚ)) (by decide)
  simpa [List.map_map] using this

/-- A record kept by one loop iteration is the processed record itself,
it passed the pure filters, and it satisfied the visibility rule. -/
theorem procesarDoc_some (f : Filtros) (fetch : Oracle) (usuario_id rol : String)
    (r kept : Registro) (cache c2 : Cache)
    (h : procesarDoc f fetch usuario_id rol r cache = (some kept, c2)) :
    kept = r ∧ pasaFiltrosPrevios f r = true
      ∧ (rol = "administrador" ∨ r.esLocal = false
         ∨ r.propietarioRegistroId = some usuario_id) := by
  unfold procesarDoc at h
  by_cases h1 : pasaFiltrosPrevios f r = true
  · rw [if_pos h1] at h
    by_cases h2 : ((pasaRut f fetch cache r).1 && pasaEstado f r) = true
    · rw [if_pos h2] at h
      by_cases h3 : rol = "administrador"
      · rw [if_pos h3] at h
        simp only [Prod.mk.injEq, Option.some.injEq] at h
        exact ⟨h.1.symm, h1, Or.inl h3⟩
      · rw [if_neg h3] at h
        by_cases h4 : (!r.esLocal) = true
        · rw [if_pos h4] at h
          simp only [Prod.mk.injEq, Option.some.injEq] at h
          exact ⟨h.1.symm, h1, Or.inr (Or.inl (by simpa using h4))⟩
        · rw [if_neg h4] at h
          by_cases h5 : (r.propietarioRegistroId == some usuario_id) = true
          · rw [if_pos h5] at h
            simp only [Prod.mk.injEq, Option.some.injEq] at h
            exact ⟨h.1.symm, h1, Or.inr (Or.inr (by simpa using h5))⟩
          · rw [if_neg h5] at h; simp at h
    · rw [if_neg h2] at h; simp at h
  · rw [if_neg h1] at h; simp at h

/-- The cache produced by one loop iteration does not depend on the
role. -/
theorem procesarDoc_snd_rol (f : Filtros) (fetch : Oracle)
    (usuario_id rol rol2 : String) (r : Registro) (cache : Cache) :
    (procesarDoc f fetch usuario_id rol r cache).2
      = (procesarDoc f fetch usuario_id rol2 r cache).2 := by
  unfold procesarDoc
  by_cases h1 : pasaFiltrosPrevios f r = true
  · rw [if_pos h1, if_pos h1]
    by_cases h2 : ((pasaRut f fetch cache r).1 && pasaEstado f r) = true
    · rw [if_pos h2, if_pos h2]
      split_ifs <;> rfl
    · rw [if_neg h2, if_neg h2]
  · rw [if_neg h1, if_neg h1]

/-- A record dropped for an administrator (i.e. by the pure filters) is
dropped, with the same cache, for every role. -/
theorem procesarDoc_admin_none (f : Filtros) (fetch : Oracle)
    (usuario_id rol : String) (r : Registro) (cache c2 : Cache)
    (h : procesarDoc f fetch usuario_id "administrador" r cache = (none, c2)) :
    procesarDoc f fetch usuario_id rol r cache = (none, c2) := by
  unfold procesarDoc at h ⊢
  by_cases h1 : pasaFiltrosPrevios f r = true
  · rw [if_pos h1] at h ⊢
    by_cases h2 : ((pasaRut f fetch cache r).1 && pasaEstado f r) = true
    · rw [if_pos h2] at h
      rw [if_pos rfl] at h
      simp at h
    · rw [if_neg h2] at h ⊢
      exact h
  · rw [if_neg h1] at h ⊢
    exact h

/-- A non-local record kept for an administrator is kept, with the same
cache, for every role. -/
theorem procesarDoc_admin_some_nolocal (f : Filtros) (fetch : Oracle)
    (usuario_id rol : String) (r kept : Registro) (cache c2 : Cache)
    (h : procesarDoc f fetch usuario_id "administrador" r cache = (some kept, c2))
    (hl : kept.esLocal = false) :
    procesarDoc f fetch usuario_id rol r cache = (some kept, c2) := by
  have hk := (procesarDoc_some f fetch usuario_id "administrador" r kept cache c2 h).1
  subst hk
  unfold procesarDoc at h ⊢
  by_cases h1 : pasaFiltrosPrevios f kept = true
  · rw [if_pos h1] at h ⊢
    by_cases h2 : ((pasaRut f fetch cache kept).1 && pasaEstado f kept) = true
    · rw [if_pos h2] at h ⊢
      rw [if_pos rfl] at h
      by_cases h3 : rol = "administrador"
      · rw [if_pos h3]
        exact h
      · rw [if_neg h3, if_pos (show (!kept.esLocal) = true by simp [hl])]
        exact h
    · rw [if_neg h2] at h
      simp at h
  · rw [if_neg h1] at h
    simp at h

/-- Every record in the filtering loop's output passed the pure filters,
and — for non-administrators — the ownership side of the visibility
rule. -/
theorem filtrarLista_propiedades (f : Filtros) (fetch : Oracle)
    (usuario_id rol : String) (r : Registro) (l : List Registro) :
    ∀ (cache : Cache), r ∈ (filtrarLista f fetch usuario_id rol l cache).1 →
      pasaFiltrosPrevios f r = true
      ∧ (rol ≠ "administrador" → r.esLocal = true →
          r.propietarioRegistroId = some usuario_id) := by
  induction l with
  | nil => intro cache h; simp [filtrarLista] at h
  | cons r0 l ih =>
    intro cache h
    simp only [filtrarLista] at h
    cases hp : procesarDoc f fetch usuario_id rol r0 cache with
    | mk o c2 =>
      rw [hp] at h
      cases o with
      | none => exact ih c2 h
      | some kept =>
        simp only [List.mem_cons] at h
        rcases h with rfl | h
        · obtain ⟨hk, hprev, hvis⟩ :=
            procesarDoc_some f fetch usuario_id rol r0 r cache c2 hp
          subst hk
          refine ⟨hprev, fun hrol hloc => ?_⟩
          rcases hvis with hv | hv | hv
          · exact absurd hv hrol
          · rw [hloc] at hv; cases hv
          · exact hv
        · exact ih c2 h

/-- Every non-local record the administrator view keeps is kept for every
role (the pure filters and the cache trace are role-independent). -/
theorem filtrarLista_admin_mono (f : Filtros) (fetch : Oracle)
    (usuario_id rol : String) (r : Registro) (l : List Registro) :
    ∀ (cache : Cache),
      r ∈ (filtrarLista f fetch usuario_id "administrador" l cache).1 →
      r.esLocal = false →
      r ∈ (filtrarLista f fetch usuario_id rol l cache).1 := by
  induction l with
  | nil => intro cache h; simp [filtrarLista] at h
  | cons r0 l ih =>
    intro cache h hl
    simp only [filtrarLista] at h ⊢
    cases hp : procesarDoc f fetch usuario_id "administrador" r0 cache with
    | mk o c2 =>
      rw [hp] at h
      cases o with
      | none =>
        rw [procesarDoc_admin_none f fetch usuario_id rol r0 cache c2 hp]
        exact ih c2 h hl
      | some kept =>
        simp only [List.mem_cons] at h
        rcases h with rfl | h
        · rw [procesarDoc_admin_some_nolocal f fetch usuario_id rol r0 r cache c2 hp hl]
          exact List.mem_cons_self r _
        · have hsnd := procesarDoc_snd_rol f fetch usuario_id "administrador" rol r0 cache
          rw [hp] at hsnd
          cases hq : procesarDoc f fetch usuario_id rol r0 cache with
          | mk o2 c3 =>
            rw [hq] at hsnd
            cases hsnd
            cases o2 with
            | none => exact ih c2 h hl
            | some kept2 => exact List.mem_cons_of_mem kept2 (ih c2 h hl)

/-- C1: non-administrators never see or export a local record they do not
own; non-local records passing the other filters are kept for every role;
an administrator keeps every record regardless of ownership. -/
theorem c1_visibilidad (fetch : Oracle) (docs cals : List Registro)
    (f : Filtros) (usuario_id rol : String) (cache : Cache) (r : Registro) :
    (rol ≠ "administrador" →
      r ∈ (obtener_datos_filtrados fetch docs f usuario_id rol cache).1 →
      r.esLocal = true → r.propietarioRegistroId = some usuario_id)
  ∧ (rol ≠ "administrador" →
      r ∈ validar_permisos_exportacion cals usuario_id rol →
      r.esLocal = true → r.propietarioRegistroId = some usuario_id)
  ∧ (r ∈ (obtener_datos_filtrados fetch docs f usuario_id "administrador" cache).1 →
      r.esLocal = false →
      r ∈ (obtener_datos_filtrados fetch docs f usuario_id rol cache).1)
  ∧ validar_permisos_exportacion cals usuario_id "administrador" = cals
  ∧ (r ∈ cals → r.esLocal = false →
      r ∈ validar_permisos_exportacion cals usuario_id rol) := by
  refine ⟨?_, ?_, ?_, ?_, ?_⟩
  · intro hrol hm hloc
    exact (filtrarLista_propiedades f fetch usuario_id rol r _ cache hm).2 hrol hloc
  · intro hrol hm hloc
    unfold validar_permisos_exportacion at hm
    rw [if_neg hrol] at hm
    simpa [hloc] using List.of_mem_filter hm
  · intro hm hl
    exact filtrarLista_admin_mono f fetch usuario_id rol r _ cache hm hl
  · unfold validar_permisos_exportacion
    rw [if_pos rfl]
  · intro hm hl
    unfold validar_permisos_exportacion
    split
    · exact hm
    · exact List.mem_filter_of_mem hm (by simp [hl])

/-- C1 witness: the spec's scenario — a client sees its own local record
and the bolsa record, an administrator keeps everything. -/
theorem c1_visibilidad_witness :
    reg1.propietarioRegistroId = some "U1"
  ∧ regB ∈ (obtener_datos_filtrados fetch0 docs1 filtros0 "U1" "cliente" cache0).1
  ∧ validar_permisos_exportacion docs1 "U1" "administrador" = docs1
  ∧ regB ∈ validar_permisos_exportacion docs1 "U1" "cliente" :=
  ⟨(c1_visibilidad fetch0 docs1 docs1 filtros0 "U1" "cliente" cache0 reg1).1
     (by decide) (by with_unfolding_all decide) (by decide),
   (c1_visibilidad fetch0 docs1 docs1 filtros0 "U1" "cliente" cache0 regB).2.2.1
     (by with_unfolding_all decide) (by decide),
   (c1_visibilidad fetch0 docs1 docs1 filtros0 "U1" "cliente" cache0 regB).2.2.2.1,
   (c1_visibilidad fetch0 docs1 docs1 filtros0 "U1" "cliente" cache0 regB).2.2.2.2
     (by decide) (by decide)⟩

/-- C3 (amended): with both bounds set, every record in the filtered
output has a declaration date that is either empty (empty dates skip the
date filters) or lies within the inclusive range. -/
theorem c3_rango_fechas (fetch : Oracle) (docs : List Registro) (f : Filtros)
    (usuario_id rol : String) (cache : Cache) (r : Registro) (d1 d2 : String)
    (h1 : f.fecha_desde = some d1) (h2 : f.fecha_hasta = some d2)
    (hm : r ∈ (obtener_datos_filtrados fetch docs f usuario_id rol cache).1) :
    r.fechaDeclaracion = ""
  ∨ (strLe d1 r.fechaDeclaracion = true ∧ strLe r.fechaDeclaracion d2 = true) := by
  have hp := (filtrarLista_propiedades f fetch usuario_id rol r _ cache hm).1
  simp only [pasaFiltrosPrevios, Bool.and_eq_true] at hp
  obtain ⟨⟨⟨hd, hh⟩, -⟩, -⟩ := hp
  simp only [pasaFechaDesde, h1] at hd
  simp only [pasaFechaHasta, h2] at hh
  by_cases he : r.fechaDeclaracion = ""
  · exact Or.inl he
  · rw [if_neg he] at hd hh
    refine Or.inr ⟨?_, ?_⟩
    · unfold strLe
      exact hd
    · unfold strLe
      exact hh

/-- C3 counterexample: a record with an empty declaration date passes a
closed date-range filter although its date is outside the range. -/
theorem c3_contraejemplo :
    reg3 ∈ (obtener_datos_filtrados fetch0 [reg3] filtros3 "U1" "administrador" cache0).1
  ∧ filtros3.fecha_desde = some "2024-01-01"
  ∧ filtros3.fecha_hasta = some "2024-12-31"
  ∧ strLe "2024-01-01" reg3.fechaDeclaracion = false :=
  ⟨by with_unfolding_all decide, rfl, rfl, by decide⟩

/-- C3 witness: an in-range record at the concrete closed range. -/
theorem c3_rango_fechas_witness :
    reg3b.fechaDeclaracion = ""
  ∨ (strLe "2024-01-01" reg3b.fechaDeclaracion = true
     ∧ strLe reg3b.fechaDeclaracion "2024-12-31" = true) :=
  c3_rango_fechas fetch0 [reg3b] filtros3 "U1" "administrador" cache0 reg3b
    "2024-01-01" "2024-12-31" rfl rfl (by with_unfolding_all decide)

/-- C4 (amended): the client-RUT predicate strips and uppercases only the
filter string and then requires it, case-sensitively, as a substring of
the resolved RUT: a single active record survives a pure RUT filter
exactly under that test. -/
theorem c4_filtro_rut (fetch : Oracle) (cache : Cache) (r : Registro)
    (usuario_id s : String) (hs : s ≠ "") (ha : r.activo = true) :
    (obtener_datos_filtrados fetch [r] (filtrosSoloRut s)
        usuario_id "administrador" cache).1
      = if subcadena (obtener_rut_cliente fetch cache r.clienteId).1
            (s.trim.toUpper) = true
        then [r] else [] := by
  have hprev : pasaFiltrosPrevios (filtrosSoloRut s) r = true := rfl
  have hest : pasaEstado (filtrosSoloRut s) r = true := rfl
  have hdoc : procesarDoc (filtrosSoloRut s) fetch usuario_id "administrador" r cache
      = ((if subcadena (obtener_rut_cliente fetch cache r.clienteId).1
              (s.trim.toUpper) = true
          then some r else none),
         (obtener_rut_cliente fetch cache r.clienteId).2) := by
    by_cases hsub : subcadena (obtener_rut_cliente fetch cache r.clienteId).1
        (s.trim.toUpper) = true <;>
      simp [procesarDoc, pasaRut, pasaFiltrosPrevios, pasaFechaDesde,
        pasaFechaHasta, pasaTipo, pasaPais, pasaEstado, filtrosSoloRut,
        hs, hsub]
  unfold obtener_datos_filtrados
  rw [show (([r].filter fun x => x.activo).take MAX_RECORDS) = [r] by
    simp [ha]
    decide]
  simp only [filtrarLista, hdoc]
  by_cases hsub : subcadena (obtener_rut_cliente fetch cache r.clienteId).1
      (s.trim.toUpper) = true
  · rw [if_pos hsub, if_pos hsub]
  · rw [if_neg hsub, if_neg hsub]

/-- C4 counterexample: the filter `"k"` case-insensitively occurs in the
resolved RUT `"12k"`, yet the record is dropped, because the code
uppercases only the filter and matches case-sensitively. -/
theorem c4_contraejemplo :
    (obtener_datos_filtrados fetch4 [reg4] (filtrosSoloRut "k")
        "U1" "administrador" cache0).1 = []
  ∧ subcadenaSpecCI "12k" "k" = true := by
  constructor <;> with_unfolding_all decide

/-- C4 witness: the amended predicate at a concrete filter and record. -/
theorem c4_filtro_rut_witness :
    (obtener_datos_filtrados fetchX [reg4] (filtrosSoloRut " x ")
        "U1" "administrador" cache0).1
      = if subcadena (obtener_rut_cliente fetchX cache0 reg4.clienteId).1
            (" x ".trim.toUpper) = true
        then [reg4] else [] :=
  c4_filtro_rut fetchX cache0 reg4 "U1" " x " (by decide) rfl
